import Mathlib

/-!
Verification of the pg8000 wire-protocol translation layer
(src/pg8000/translate.py, src/pg8000/startup.py, src/pg8000/constants.py,
src/pg8000/tzutc.py).

Byte strings are modelled as List Nat with every element below 256.
Fallible Python code is modelled with Except PyErr.  Machine integers are
Int with explicit reductions modulo 2 ^ 64 (resp. 2 ^ 32) where the struct
module packs them.
-/

namespace Pg8000

/-- Python exception classes that the embedded code can raise.  The classes
come from the struct module, the builtins, and pg8000.errors (the latter
module is imported by translate.py; only the class names matter here). -/
inductive PyErr where
  | structError
  | overflowError
  | typeError
  | indexError
  | valueError
  | nameError (missing : String)
  | attributeError (missing : String)
  | arrayContentEmptyError
  | arrayContentNotSupportedError
  deriving DecidableEq, Repr

instance {ε α : Type} [DecidableEq ε] [DecidableEq α] :
    DecidableEq (Except ε α) := fun a b =>
  match a, b with
  | .ok x, .ok y => decidable_of_iff (x = y) (by simp)
  | .ok _, .error _ => isFalse (by simp)
  | .error _, .ok _ => isFalse (by simp)
  | .error e, .error f => decidable_of_iff (e = f) (by simp)

theorem except_ok_bind {ε α β : Type} (x : α) (f : α → Except ε β) :
    (Except.ok x >>= f) = f x := rfl

theorem except_error_bind {ε α β : Type} (e : ε) (f : α → Except ε β) :
    ((Except.error e : Except ε α) >>= f) = .error e := rfl

theorem except_pure {ε α : Type} (x : α) :
    (pure x : Except ε α) = .ok x := rfl

/-! ## Binary primitive pack table (translate.py, _create_pack_funcs)

struct.Struct with a leading "!" packs big-endian.  natToBytesBE w n is the
w-byte big-endian encoding of n modulo 2 ^ (8 * w); bytesToNatBE is its
inverse. -/

/-- Big-endian byte encoding of a natural number, fixed width. -/
def natToBytesBE : Nat → Nat → List Nat
  | 0, _ => []
  | w + 1, n => natToBytesBE w (n / 256) ++ [n % 256]

/-- Big-endian byte decoding of a natural number. -/
def bytesToNatBE (l : List Nat) : Nat :=
  l.foldl (fun acc b => acc * 256 + b) 0

theorem natToBytesBE_length (w n : Nat) : (natToBytesBE w n).length = w := by
  induction w generalizing n with
  | zero => rfl
  | succ w ih => simp [natToBytesBE, ih]

theorem bytesToNatBE_append (l : List Nat) (b : Nat) :
    bytesToNatBE (l ++ [b]) = bytesToNatBE l * 256 + b := by
  simp [bytesToNatBE, List.foldl_append]

theorem bytesToNatBE_natToBytesBE (w n : Nat) :
    bytesToNatBE (natToBytesBE w n) = n % 256 ^ w := by
  induction w generalizing n with
  | zero => simp [natToBytesBE, bytesToNatBE, Nat.mod_one]
  | succ w ih =>
    rw [natToBytesBE, bytesToNatBE_append, ih, pow_succ]
    have hP : 0 < 256 ^ w := pow_pos (by omega) w
    have hm : n / 256 % 256 ^ w < 256 ^ w := Nat.mod_lt _ hP
    have e1 : 256 * (n / 256) + n % 256 = n := Nat.div_add_mod n 256
    have e2 : 256 ^ w * (n / 256 / 256 ^ w) + n / 256 % 256 ^ w = n / 256 :=
      Nat.div_add_mod (n / 256) (256 ^ w)
    have h1 : n = (n / 256 % 256 ^ w * 256 + n % 256) +
        256 ^ w * 256 * (n / 256 / 256 ^ w) := by
      calc n = 256 * (n / 256) + n % 256 := e1.symm
        _ = 256 * (256 ^ w * (n / 256 / 256 ^ w) + n / 256 % 256 ^ w) + n % 256 := by
              rw [e2]
        _ = (n / 256 % 256 ^ w * 256 + n % 256) +
              256 ^ w * 256 * (n / 256 / 256 ^ w) := by ring
    have h2 : (n / 256 % 256 ^ w + 1) * 256 ≤ 256 ^ w * 256 :=
      Nat.mul_le_mul_right _ hm
    have hx : n / 256 % 256 ^ w * 256 + n % 256 < 256 ^ w * 256 := by
      have hr : n % 256 < 256 := Nat.mod_lt _ (by omega)
      omega
    conv_rhs => rw [h1]
    rw [Nat.add_mul_mod_self_left, Nat.mod_eq_of_lt hx]

/-- struct.pack with format "!q": 8-byte big-endian signed 64-bit integer.
The payload is the two-s-complement byte string; out-of-range integers make
struct.pack raise struct.error. -/
def q_pack_raw (n : Int) : List Nat :=
  natToBytesBE 8 (n % (2 ^ 64 : Int)).toNat

def q_pack (n : Int) : Except PyErr (List Nat) :=
  if -(2 ^ 63) ≤ n ∧ n < 2 ^ 63 then .ok (q_pack_raw n) else .error .structError

/-- struct.unpack_from with format "!q": reads exactly 8 bytes at offset and
raises struct.error when the buffer holds fewer than 8 bytes past offset.
The caller-declared length bound plays no part. -/
def q_unpack (data : List Nat) (offset : Nat) : Except PyErr Int :=
  if offset + 8 ≤ data.length then
    let u := bytesToNatBE ((data.drop offset).take 8)
    .ok (if u < 2 ^ 63 then (u : Int) else (u : Int) - 2 ^ 64)
  else .error .structError

/-- struct.pack with format "!i": 4-byte big-endian signed 32-bit integer. -/
def i_pack_raw (n : Int) : List Nat :=
  natToBytesBE 4 (n % (2 ^ 32 : Int)).toNat

def i_pack (n : Int) : Except PyErr (List Nat) :=
  if -(2 ^ 31) ≤ n ∧ n < 2 ^ 31 then .ok (i_pack_raw n) else .error .structError

theorem q_unpack_q_pack_raw (n : Int) (h1 : -(2 ^ 63) ≤ n) (h2 : n < 2 ^ 63) :
    q_unpack (q_pack_raw n) 0 = .ok n := by
  have hlen : (q_pack_raw n).length = 8 := natToBytesBE_length 8 _
  have hmodlt : n % (2 ^ 64 : Int) < 2 ^ 64 := Int.emod_lt_of_pos n (by norm_num)
  have hmodge : 0 ≤ n % (2 ^ 64 : Int) := Int.emod_nonneg n (by norm_num)
  have hu : ((n % (2 ^ 64 : Int)).toNat : Int) = n % 2 ^ 64 :=
    Int.toNat_of_nonneg hmodge
  have hulat : (n % (2 ^ 64 : Int)).toNat < 2 ^ 64 := by omega
  have htake : (q_pack_raw n).take 8 = q_pack_raw n := by
    apply List.take_of_length_le; omega
  have hval : bytesToNatBE (q_pack_raw n) = (n % (2 ^ 64 : Int)).toNat := by
    rw [q_pack_raw, bytesToNatBE_natToBytesBE]
    exact Nat.mod_eq_of_lt (by norm_num at hulat ⊢; omega)
  rw [q_unpack]
  rw [if_pos (by omega)]
  simp only [List.drop_zero, htake, hval]
  have hn : n % (2 ^ 64 : Int) = if n < 0 then n + 2 ^ 64 else n := by
    split <;> omega
  by_cases hneg : n < 0
  · have : ¬ ((n % (2 ^ 64 : Int)).toNat < 2 ^ 63) := by omega
    rw [if_neg this]
    congr 1
    omega
  · have : (n % (2 ^ 64 : Int)).toNat < 2 ^ 63 := by omega
    rw [if_pos this]
    congr 1
    omega

/-! ## Epoch-relative timestamp model (translate.py, __init__ and the
timestamp codecs)

A naive datetime.datetime is modelled as its microsecond count since
datetime.datetime.min (0001-01-01T00:00:00); the representable range is
[0, dtMaxMicros].  datetime.datetime(2000, 1, 1), the PostgreSQL epoch,
sits at epochMicros.  Adding a timedelta raises OverflowError exactly when
the resulting microsecond count leaves the representable range. -/

/-- Microseconds from datetime.min to datetime.datetime(2000, 1, 1):
730119 days. -/
def epochMicros : Int := 730119 * 86400000000

/-- Microseconds from datetime.min to datetime.datetime.max
(9999-12-31T23:59:59.999999): 3652059 days minus one microsecond. -/
def dtMaxMicros : Int := 3652059 * 86400000000 - 1

/-- datetime.datetime.min in the model. -/
def dtMinMicros : Int := 0

/-- self.infinity_microseconds = 2 ** 63 - 1 (translate.py line 60). -/
def infinity_microseconds : Int := 2 ^ 63 - 1

/-- self.minus_infinity_microseconds = -1 * infinity_microseconds - 1
(translate.py line 61), that is -(2 ^ 63). -/
def minus_infinity_microseconds : Int := -1 * infinity_microseconds - 1

/-- A naive datetime is representable when its microsecond count lies in
the datetime.MINYEAR..datetime.MAXYEAR range. -/
def dtRepresentable (t : Int) : Prop := 0 ≤ t ∧ t ≤ dtMaxMicros

instance (t : Int) : Decidable (dtRepresentable t) := by
  unfold dtRepresentable; infer_instance

/-- epoch + datetime.timedelta(microseconds=micros): the addition raises
OverflowError when the result is out of range, else returns the shifted
datetime. -/
def py_datetime_add (t delta : Int) : Except PyErr Int :=
  if dtRepresentable (t + delta) then .ok (t + delta) else .error .overflowError

/-- calendar.timegm(t.timetuple()): whole seconds of the naive datetime
since the Unix epoch (1970-01-01 is 719162 days past datetime.min). -/
def timegm_model (t : Int) : Int := t / 1000000 - 719162 * 86400

/-- self.epoch_seconds = calendar.timegm(self.epoch.timetuple()). -/
def epoch_seconds : Int := 946684800

/-- Microsecond offset computed by the non-sentinel branch of
timestamp_send_integer:
int((calendar.timegm(timestamp.timetuple()) - self.epoch_seconds) * 1e6)
+ timestamp.microsecond.
The model uses exact integer arithmetic; CPython routes the product
through a binary64, which is exact for magnitudes below 2 ^ 53 and is not
relied on by any theorem below. -/
def timestamp_micros_general (t : Int) : Int :=
  (timegm_model t - epoch_seconds) * 1000000 + t % 1000000

/-- translate.py timestamp_send_integer: datetime.max and datetime.min map
to the two sentinel microsecond counts, every other datetime to its
epoch-relative offset; the result is packed with the "!q" format. -/
def timestamp_send_integer (t : Int) : Except PyErr (List Nat) :=
  let micros : Int :=
    if t = dtMaxMicros then infinity_microseconds
    else if t = dtMinMicros then minus_infinity_microseconds
    else timestamp_micros_general t
  q_pack micros

/-- translate.py timestamp_recv_integer: unpack a signed 64-bit offset,
add it to the epoch; on OverflowError return datetime.max or datetime.min
for exactly the two sentinel offsets and re-raise otherwise.  The length
argument is ignored by the source (its docstring says so). -/
def timestamp_recv_integer (data : List Nat) (offset length : Nat) :
    Except PyErr Int :=
  match q_unpack data offset with
  | .error e => .error e
  | .ok micros =>
    match py_datetime_add epochMicros micros with
    | .ok t => .ok t
    | .error e =>
      if micros = infinity_microseconds then .ok dtMaxMicros
      else if micros = minus_infinity_microseconds then .ok dtMinMicros
      else .error e

/-- C1: under the integer timestamp representation, encoding
datetime.datetime.max yields the 8-byte big-endian encoding of 2 ^ 63 - 1
and encoding datetime.datetime.min yields that of -(2 ^ 63); decoding
exactly those two wire integers returns datetime.max (resp. datetime.min);
and every other 64-bit microsecond offset whose epoch-relative datetime is
out of range makes the decoder raise OverflowError instead of clamping. -/
theorem c1_timestamp_integer_sentinels :
    timestamp_send_integer dtMaxMicros =
      .ok [127, 255, 255, 255, 255, 255, 255, 255] ∧
    timestamp_send_integer dtMinMicros = .ok [128, 0, 0, 0, 0, 0, 0, 0] ∧
    q_pack_raw infinity_microseconds =
      [127, 255, 255, 255, 255, 255, 255, 255] ∧
    q_pack_raw minus_infinity_microseconds = [128, 0, 0, 0, 0, 0, 0, 0] ∧
    timestamp_recv_integer (q_pack_raw infinity_microseconds) 0 8 =
      .ok dtMaxMicros ∧
    timestamp_recv_integer (q_pack_raw minus_infinity_microseconds) 0 8 =
      .ok dtMinMicros ∧
    ∀ micros : Int, -(2 ^ 63) ≤ micros → micros < 2 ^ 63 →
      micros ≠ infinity_microseconds →
      micros ≠ minus_infinity_microseconds →
      ¬ dtRepresentable (epochMicros + micros) →
      timestamp_recv_integer (q_pack_raw micros) 0 8 =
        .error .overflowError := by
  refine ⟨by decide, by decide, by decide, by decide, by decide, by decide,
    fun micros h1 h2 h3 h4 h5 => ?_⟩
  have hq := q_unpack_q_pack_raw micros h1 h2
  simp only [timestamp_recv_integer, hq, py_datetime_add, if_neg h5,
    if_neg h3, if_neg h4]

/-- Witness for C1: the offset 2 ^ 62 is unrepresentable relative to the
epoch and is not a sentinel, so decoding it raises OverflowError. -/
theorem c1_timestamp_integer_sentinels_witness :
    timestamp_recv_integer (q_pack_raw (2 ^ 62)) 0 8 =
      .error .overflowError :=
  c1_timestamp_integer_sentinels.2.2.2.2.2.2 (2 ^ 62)
    (by decide) (by decide) (by decide) (by decide) (by decide)

/-! ## Startup message framer (startup.py)

Keys and values reach make_argument as Python str and are encoded with
UTF-8 there; the model takes them as byte lists and writes the ASCII
constants used by the source with the ascii helper (UTF-8 and ASCII agree
on these strings). -/

/-- Byte list of an ASCII string literal. -/
def ascii (s : String) : List Nat := s.data.map Char.toNat

/-- Constants.DEFAULT_PROTOCOL_VERSION = (VERSION_MAJOR << 16) |
VERSION_MINOR with major 3 and minor 0 (constants.py lines 42-44). -/
def DEFAULT_PROTOCOL_VERSION : Int := Int.ofNat ((3 <<< 16) ||| 0)

/-- self.null_byte = b"\x00". -/
def null_byte : List Nat := [0]

/-- StartupMessage.make_argument: key, NUL, value, NUL. -/
def make_argument (key value : List Nat) : List Nat :=
  key ++ null_byte ++ value ++ null_byte

/-- StartupMessage._construct.  database is skipped when None,
application_name is skipped when None or empty (Python truthiness), the
extra keyword arguments follow in caller order, and the 4-byte total
length written first counts itself. -/
def constructAux (database : Option (List Nat)) (user : List Nat)
    (protocol_version : Option Int) (application_name : Option (List Nat))
    (kwargs : List (List Nat × List Nat)) : Except PyErr (List Nat) := do
  let pv : Int :=
    match protocol_version with
    | none => DEFAULT_PROTOCOL_VERSION
    | some p => if p = 0 then DEFAULT_PROTOCOL_VERSION else p
  let pvBytes ← i_pack pv
  let message := pvBytes ++ make_argument (ascii "user") user ++
    (match database with
     | some db => make_argument (ascii "database") db
     | none => []) ++
    (match application_name with
     | some app =>
       if app = [] then [] else make_argument (ascii "application_name") app
     | none => []) ++
    (kwargs.map (fun kv => make_argument kv.1 kv.2)).flatten ++ null_byte
  let lenBytes ← i_pack ((message.length : Int) + 4)
  return lenBytes ++ message

/-- StartupMessage.construct: substitutes Constants.APPLICATION_NAME (an
environment-dependent value of shape hostname_pid_executable, passed here
as appNameDefault) when application_name is None, then delegates to
_construct. -/
def construct (appNameDefault : List Nat) (database : Option (List Nat))
    (user : List Nat) (protocol_version : Option Int)
    (application_name : Option (List Nat))
    (kwargs : List (List Nat × List Nat)) : Except PyErr (List Nat) :=
  constructAux database user protocol_version
    (some (application_name.getD appNameDefault)) kwargs

/-- The byte string that claim C2 predicts for
construct(database="db", user="u", clientEncoding="utf-8"). -/
def c2ClaimBytes : List Nat :=
  i_pack_raw 28 ++ i_pack_raw 196608 ++ ascii "user" ++ [0] ++ ascii "u" ++
    [0] ++ ascii "database" ++ [0] ++ ascii "db" ++ [0] ++ [0]

/-- C2 counterexample: with any concrete environment application name
(here "h_1_py"), construct with all optional arguments at their defaults
does not produce the key/value region user NUL u NUL database NUL db NUL
NUL of the claim: the always-non-empty default application_name is framed
too. -/
theorem c2_startup_construct_counterexample :
    construct (ascii "h_1_py") (some (ascii "db")) (ascii "u")
        none none [] ≠ .ok c2ClaimBytes ∧
    construct (ascii "h_1_py") (some (ascii "db")) (ascii "u")
        none none [] =
      .ok (i_pack_raw 52 ++ i_pack_raw 196608 ++ ascii "user" ++ [0] ++
        ascii "u" ++ [0] ++ ascii "database" ++ [0] ++ ascii "db" ++ [0] ++
        ascii "application_name" ++ [0] ++ ascii "h_1_py" ++ [0] ++ [0]) := by
  constructor
  · decide
  · decide

/-- C2 amended: construct(database="db", user="u") yields a 4-byte
big-endian total length that counts its own 4 bytes, the protocol version
0x00030000, then the region user NUL u NUL database NUL db NUL followed by
application_name NUL appName NUL (the default application name is always
non-empty) and the single terminating NUL byte. -/
theorem c2_startup_construct_amended :
    ∀ app : List Nat, app ≠ [] → (app.length : Int) + 46 < 2 ^ 31 →
    construct app (some (ascii "db")) (ascii "u") none none [] =
      .ok (i_pack_raw ((app.length : Int) + 46) ++ i_pack_raw 196608 ++
        ascii "user" ++ [0] ++ ascii "u" ++ [0] ++
        ascii "database" ++ [0] ++ ascii "db" ++ [0] ++
        ascii "application_name" ++ [0] ++ app ++ [0] ++ [0]) := by
  intro app happ hlen
  unfold construct constructAux
  simp only [Option.getD, List.map_nil, List.flatten_nil]
  rw [if_neg happ]
  have hpv : i_pack DEFAULT_PROTOCOL_VERSION = .ok (i_pack_raw 196608) := by
    decide
  rw [hpv, except_ok_bind]
  have e1 : (i_pack_raw 196608).length = 4 := rfl
  have e2 : (ascii "user").length = 4 := rfl
  have e3 : (ascii "u").length = 1 := rfl
  have e4 : (ascii "database").length = 8 := rfl
  have e5 : (ascii "db").length = 2 := rfl
  have e6 : (ascii "application_name").length = 16 := rfl
  have hmsg : (i_pack_raw 196608 ++
      make_argument (ascii "user") (ascii "u") ++
      make_argument (ascii "database") (ascii "db") ++
      make_argument (ascii "application_name") app ++
      ([] : List Nat) ++ null_byte).length = app.length + 42 := by
    simp [make_argument, null_byte, List.length_append, e1, e2, e3, e4, e5,
      e6]
    omega
  rw [hmsg]
  have hcast : ((app.length + 42 : Nat) : Int) + 4 =
      (app.length : Int) + 46 := by
    push_cast
    ring
  rw [hcast]
  rw [i_pack, if_pos (by constructor <;> omega)]
  rw [except_ok_bind, except_pure]
  simp [make_argument, null_byte, List.append_assoc]

/-- Witness for C2 amended: instantiated at the application name
"h_1_py". -/
theorem c2_startup_construct_amended_witness :
    construct (ascii "h_1_py") (some (ascii "db")) (ascii "u")
        none none [] =
      .ok (i_pack_raw (((ascii "h_1_py").length : Int) + 46) ++
        i_pack_raw 196608 ++ ascii "user" ++ [0] ++ ascii "u" ++ [0] ++
        ascii "database" ++ [0] ++ ascii "db" ++ [0] ++
        ascii "application_name" ++ [0] ++ ascii "h_1_py" ++ [0] ++ [0]) :=
  c2_startup_construct_amended (ascii "h_1_py") (by decide) (by decide)

/-! ## Scalar decode bounds (translate.py, int8_recv and the py3 branch of
_create_text_recv_func) -/

/-- translate.py int8_recv: self.q_unpack(data, offset)[0].  The length
argument is ignored; its own docstring says "length: Ignored". -/
def int8_recv (data : List Nat) (offset length : Nat) : Except PyErr Int :=
  q_unpack data offset

/-- text_recv (py3 branch): str(data[offset : offset + length],
self.client_encoding).  A Python slice clamps to the buffer, so at most
length bytes are taken and a short buffer is silently truncated.  With the
None sentinel from the encoding table as client_encoding, str raises
TypeError.  The codec decode of the sliced bytes into text is modelled as
the identity on the byte content (the claims depend only on the sliced
range and on the sentinel failure, not on any specific charset). -/
def text_recv (client_encoding : Option String) (data : List Nat)
    (offset length : Nat) : Except PyErr (List Nat) :=
  match client_encoding with
  | none => .error .typeError
  | some _ => .ok ((data.drop offset).take length)

/-- A 12-byte buffer whose first 8 bytes encode the int8 value 1. -/
def c3Blob : List Nat := [0, 0, 0, 0, 0, 0, 0, 1, 9, 9, 9, 9]

/-- C3 counterexample: decoding an int8 with the caller-declared length 4
does not raise; the codec reads 8 bytes, 4 of them beyond offset + length,
and returns the fabricated value 1. -/
theorem c3_decode_length_counterexample :
    int8_recv c3Blob 0 4 = .ok 1 := by decide

/-- C3 amended: the fixed-width binary codecs ignore the length argument
entirely; they read the format width (8 bytes for int8) from offset,
raise struct.error only when the underlying buffer holds fewer than that
many bytes past offset, and otherwise return a value even when the read
extends beyond offset + length; the text codec slices at most length
bytes and silently truncates, without an error, when the buffer is
short. -/
theorem c3_decode_length_amended :
    (∀ (data : List Nat) (offset l1 l2 : Nat),
      int8_recv data offset l1 = int8_recv data offset l2) ∧
    (∀ (data : List Nat) (offset length : Nat), data.length < offset + 8 →
      int8_recv data offset length = .error .structError) ∧
    (∀ (enc : String) (data : List Nat) (offset length : Nat),
      text_recv (some enc) data offset length =
        .ok ((data.drop offset).take length)) ∧
    (∀ (enc : String) (data out : List Nat) (offset length : Nat),
      text_recv (some enc) data offset length = .ok out →
      out.length ≤ length) := by
  refine ⟨fun data offset l1 l2 => rfl, ?_, fun enc data offset length => rfl,
    ?_⟩
  · intro data offset length h
    rw [int8_recv, q_unpack, if_neg (by omega)]
  · intro enc data out offset length h
    rw [text_recv] at h
    injection h with h
    rw [← h]
    calc ((data.drop offset).take length).length ≤ length :=
      List.length_take_le length _

/-- Witness for C3 amended: a 2-byte buffer makes int8 decode raise
struct.error, and a truncating text decode returns at most length
bytes. -/
theorem c3_decode_length_amended_witness :
    int8_recv [1, 2] 0 8 = .error .structError ∧
    ([65, 66] : List Nat).length ≤ 5 :=
  ⟨c3_decode_length_amended.2.1 [1, 2] 0 8 (by decide),
   c3_decode_length_amended.2.2.2 "utf-8" [65, 66] [65, 66] 0 5 (by decide)⟩

/-! ## Boolean codec (translate.py, bool_send and the py3 bool_recv) -/

/-- self.true = b"\x01" (translate.py line 66). -/
def true_byte : List Nat := [1]

/-- self.false = b"\x00" (translate.py line 67); defined in __init__ but
never reached by bool_send, see below. -/
def false_byte : List Nat := [0]

/-- translate.py bool_send: self.true if value else false.  The else arm
names the bare global false, which no module-level binding defines, so a
falsy value raises NameError instead of returning self.false. -/
def bool_send (value : Bool) : Except PyErr (List Nat) :=
  if value then .ok true_byte else .error (.nameError "false")

/-- bool_recv (py3 branch): data[offset] == 1.  Indexing a bytes object
past its end raises IndexError. -/
def bool_recv (data : List Nat) (offset length : Nat) : Except PyErr Bool :=
  if h : offset < data.length then .ok (data.get ⟨offset, h⟩ == 1)
  else .error .indexError

/-- C9: the bool encoder returns the single byte 0x01 for true, but for
false it raises NameError (the source says false where self.false is
defined and intended) instead of returning 0x00; the BINARY bool decoder
returns true exactly when the byte at the given offset equals 1. -/
theorem c9_bool_codec :
    bool_send true = .ok [1] ∧
    bool_send false = .error (.nameError "false") ∧
    (∀ (data : List Nat) (offset length : Nat)
      (h : offset < data.length),
      (bool_recv data offset length = .ok true ↔
        data.get ⟨offset, h⟩ = 1)) := by
  refine ⟨by decide, by decide, ?_⟩
  intro data offset length h
  rw [bool_recv, dif_pos h]
  simp [beq_iff_eq]

/-- Witness for C9: the decoder on the one-byte buffer 0x01 at offset 0
returns true. -/
theorem c9_bool_codec_witness :
    bool_recv [1] 0 1 = .ok true ↔ ([1] : List Nat).get ⟨0, by decide⟩ = 1 :=
  c9_bool_codec.2.2 [1] 0 1 (by decide)

/-! ## Type registry (translate.py, _establish_postgres_types and
_establish_python_types)

The dispatch tables hold bound methods; the model names each method with
an enumeration constant.  pg_types is a defaultdict whose default factory
yields (FC_TEXT, text_recv). -/

/-- Constants.FC_TEXT = 0. -/
def FC_TEXT : Nat := 0

/-- Constants.FC_BINARY = 1. -/
def FC_BINARY : Nat := 1

/-- Names of the decode methods installed in pg_types. -/
inductive DecoderId where
  | boolRecv | byteaRecv | textRecv | int8Recv | int2Recv | int4Recv
  | vectorIn | intIn | jsonIn | float4Recv | float8Recv | inetIn
  | arrayRecv | dateIn | timeIn
  | timestampRecvFloat | timestamptzRecvFloat
  | timestampRecvInteger | timestamptzRecvInteger
  | intervalRecvInteger | intervalRecvFloat
  | numArrayIn | numericIn | uuidRecv
  deriving DecidableEq, Repr

/-- Names of the encode methods installed in py_types. -/
inductive EncoderId where
  | nullSend | boolSend | unknownOut | dPack | inetOut | dateOut | timeOut
  | timestampSendInteger | timestamptzSendInteger
  | timestampSendFloat | timestamptzSendFloat
  | intervalSendInteger | intervalSendFloat
  | numericOut | uuidSend | byteaSend | textOut
  deriving DecidableEq, Repr

/-- Keys of py_types: Python types, plus the two plain integers 1114 and
1184 that the source uses as keys for the timestamp encoders. -/
inductive PyKey where
  | noneType | boolType | intType | floatType
  | ipv4Address | ipv6Address | ipv4Network | ipv6Network
  | dateType | timeType | oid1114 | oid1184
  | timedeltaType | intervalType | decimalType | uuidType
  | bytesType | strType
  deriving DecidableEq, Repr

/-- The literal pg_types table of _establish_postgres_types (the
defaultdict initializer, translate.py lines 83-124). -/
def pg_types_entries : List (Nat × (Nat × DecoderId)) := [
  (16,   (FC_BINARY, .boolRecv)),
  (17,   (FC_BINARY, .byteaRecv)),
  (19,   (FC_BINARY, .textRecv)),
  (20,   (FC_BINARY, .int8Recv)),
  (21,   (FC_BINARY, .int2Recv)),
  (22,   (FC_TEXT,   .vectorIn)),
  (23,   (FC_BINARY, .int4Recv)),
  (25,   (FC_BINARY, .textRecv)),
  (26,   (FC_TEXT,   .intIn)),
  (28,   (FC_TEXT,   .intIn)),
  (114,  (FC_TEXT,   .jsonIn)),
  (700,  (FC_BINARY, .float4Recv)),
  (701,  (FC_BINARY, .float8Recv)),
  (705,  (FC_BINARY, .textRecv)),
  (829,  (FC_TEXT,   .textRecv)),
  (869,  (FC_TEXT,   .inetIn)),
  (1000, (FC_BINARY, .arrayRecv)),
  (1003, (FC_BINARY, .arrayRecv)),
  (1005, (FC_BINARY, .arrayRecv)),
  (1007, (FC_BINARY, .arrayRecv)),
  (1009, (FC_BINARY, .arrayRecv)),
  (1014, (FC_BINARY, .arrayRecv)),
  (1015, (FC_BINARY, .arrayRecv)),
  (1016, (FC_BINARY, .arrayRecv)),
  (1021, (FC_BINARY, .arrayRecv)),
  (1022, (FC_BINARY, .arrayRecv)),
  (1042, (FC_BINARY, .textRecv)),
  (1043, (FC_BINARY, .textRecv)),
  (1082, (FC_TEXT,   .dateIn)),
  (1083, (FC_TEXT,   .timeIn)),
  (1114, (FC_BINARY, .timestampRecvFloat)),
  (1184, (FC_BINARY, .timestamptzRecvFloat)),
  (1186, (FC_BINARY, .intervalRecvInteger)),
  (1231, (FC_TEXT,   .numArrayIn)),
  (1263, (FC_BINARY, .arrayRecv)),
  (1700, (FC_TEXT,   .numericIn)),
  (2275, (FC_BINARY, .textRecv)),
  (2950, (FC_BINARY, .uuidRecv)),
  (3802, (FC_TEXT,   .jsonIn))]

/-- Lookup in the pg_types defaultdict: a missing OID yields the default
factory value (FC_TEXT, text_recv). -/
def pg_types_lookup (oid : Nat) : Nat × DecoderId :=
  (pg_types_entries.lookup oid).getD (FC_TEXT, .textRecv)

/-- The literal py_types table of _establish_python_types, py3 branch
(translate.py lines 126-153). -/
def py_types_entries : List (PyKey × (Int × Nat × EncoderId)) := [
  (.noneType,      (-1,   FC_BINARY, .nullSend)),
  (.boolType,      (16,   FC_BINARY, .boolSend)),
  (.intType,       (705,  FC_TEXT,   .unknownOut)),
  (.floatType,     (701,  FC_BINARY, .dPack)),
  (.ipv4Address,   (869,  FC_TEXT,   .inetOut)),
  (.ipv6Address,   (869,  FC_TEXT,   .inetOut)),
  (.ipv4Network,   (869,  FC_TEXT,   .inetOut)),
  (.ipv6Network,   (869,  FC_TEXT,   .inetOut)),
  (.dateType,      (1082, FC_TEXT,   .dateOut)),
  (.timeType,      (1083, FC_TEXT,   .timeOut)),
  (.oid1114,       (1114, FC_BINARY, .timestampSendInteger)),
  (.oid1184,       (1184, FC_BINARY, .timestamptzSendInteger)),
  (.timedeltaType, (1186, FC_BINARY, .intervalSendInteger)),
  (.intervalType,  (1186, FC_BINARY, .intervalSendInteger)),
  (.decimalType,   (1700, FC_TEXT,   .numericOut)),
  (.uuidType,      (2950, FC_BINARY, .uuidSend)),
  (.bytesType,     (17,   FC_BINARY, .byteaSend)),
  (.strType,       (705,  FC_TEXT,   .textOut))]

def py_types_lookup (k : PyKey) : Option (Int × Nat × EncoderId) :=
  py_types_entries.lookup k

/-- The two dispatch tables owned by one translator instance.  pg_types
keeps the defaultdict semantics as a total function. -/
structure TypeRegistry where
  pg_types : Nat → Nat × DecoderId
  py_types : PyKey → Option (Int × Nat × EncoderId)

/-- Registry state right after __init__. -/
def initialRegistry : TypeRegistry :=
  { pg_types := pg_types_lookup, py_types := py_types_lookup }

/-- translate.py timestamps_are_integers: reassigns the three pg_types
entries 1114/1184/1186 and the four py_types entries 1114/1184/
interval/timedelta to the integer-representation codecs. -/
def timestamps_are_integers (s : TypeRegistry) : TypeRegistry :=
  { pg_types := fun oid =>
      if oid = 1114 then (FC_BINARY, .timestampRecvInteger)
      else if oid = 1184 then (FC_BINARY, .timestamptzRecvInteger)
      else if oid = 1186 then (FC_BINARY, .intervalRecvInteger)
      else s.pg_types oid,
    py_types := fun k =>
      if k = .oid1114 then some (1114, FC_BINARY, .timestampSendInteger)
      else if k = .oid1184 then some (1184, FC_BINARY, .timestamptzSendInteger)
      else if k = .intervalType then some (1186, FC_BINARY, .intervalSendInteger)
      else if k = .timedeltaType then some (1186, FC_BINARY, .intervalSendInteger)
      else s.py_types k }

/-- translate.py timestamps_are_floats: the same seven entries, with the
float-representation codecs. -/
def timestamps_are_floats (s : TypeRegistry) : TypeRegistry :=
  { pg_types := fun oid =>
      if oid = 1114 then (FC_BINARY, .timestampRecvFloat)
      else if oid = 1184 then (FC_BINARY, .timestamptzRecvFloat)
      else if oid = 1186 then (FC_BINARY, .intervalRecvFloat)
      else s.pg_types oid,
    py_types := fun k =>
      if k = .oid1114 then some (1114, FC_BINARY, .timestampSendFloat)
      else if k = .oid1184 then some (1184, FC_BINARY, .timestamptzSendFloat)
      else if k = .intervalType then some (1186, FC_BINARY, .intervalSendFloat)
      else if k = .timedeltaType then some (1186, FC_BINARY, .intervalSendFloat)
      else s.py_types k }

/-- The timestamp/timestamptz/interval entries of a registry all use the
integer representation. -/
def usesIntegerRep (s : TypeRegistry) : Prop :=
  s.pg_types 1114 = (FC_BINARY, .timestampRecvInteger) ∧
  s.pg_types 1184 = (FC_BINARY, .timestamptzRecvInteger) ∧
  s.pg_types 1186 = (FC_BINARY, .intervalRecvInteger) ∧
  s.py_types .oid1114 = some (1114, FC_BINARY, .timestampSendInteger) ∧
  s.py_types .oid1184 = some (1184, FC_BINARY, .timestamptzSendInteger) ∧
  s.py_types .intervalType = some (1186, FC_BINARY, .intervalSendInteger) ∧
  s.py_types .timedeltaType = some (1186, FC_BINARY, .intervalSendInteger)

/-- The timestamp/timestamptz/interval entries of a registry all use the
float representation. -/
def usesFloatRep (s : TypeRegistry) : Prop :=
  s.pg_types 1114 = (FC_BINARY, .timestampRecvFloat) ∧
  s.pg_types 1184 = (FC_BINARY, .timestamptzRecvFloat) ∧
  s.pg_types 1186 = (FC_BINARY, .intervalRecvFloat) ∧
  s.py_types .oid1114 = some (1114, FC_BINARY, .timestampSendFloat) ∧
  s.py_types .oid1184 = some (1184, FC_BINARY, .timestamptzSendFloat) ∧
  s.py_types .intervalType = some (1186, FC_BINARY, .intervalSendFloat) ∧
  s.py_types .timedeltaType = some (1186, FC_BINARY, .intervalSendFloat)

/-- C5: every OID resolves to exactly one (format, decoder) descriptor,
and every OID absent from the pg_types table resolves to the defaultdict
default (FC_TEXT, text_recv) instead of failing. -/
theorem c5_decode_default_fallback :
    (∀ oid : Nat, ∃! d : Nat × DecoderId, pg_types_lookup oid = d) ∧
    (∀ oid : Nat, pg_types_entries.lookup oid = none →
      pg_types_lookup oid = (FC_TEXT, .textRecv)) := by
  constructor
  · intro oid
    exact ⟨pg_types_lookup oid, rfl, fun y hy => hy.symm⟩
  · intro oid h
    rw [pg_types_lookup, h]
    rfl

/-- Witness for C5: OID 424242 is not in the table and decodes with the
default TEXT text_recv descriptor. -/
theorem c5_decode_default_fallback_witness :
    pg_types_lookup 424242 = (FC_TEXT, .textRecv) :=
  c5_decode_default_fallback.2 424242 (by decide)

/-- C10: a freshly constructed translator registers the float decoders
for OIDs 1114 and 1184 and the integer interval decoder for 1186, while
registering the integer encoders for 1114/1184, so the initial registry
mixes the two representations; after timestamps_are_integers (resp.
timestamps_are_floats) all seven entries use one representation
consistently. -/
theorem c10_initial_registry_mixed :
    initialRegistry.pg_types 1114 = (FC_BINARY, .timestampRecvFloat) ∧
    initialRegistry.pg_types 1184 = (FC_BINARY, .timestamptzRecvFloat) ∧
    initialRegistry.pg_types 1186 = (FC_BINARY, .intervalRecvInteger) ∧
    initialRegistry.py_types .oid1114 =
      some (1114, FC_BINARY, .timestampSendInteger) ∧
    initialRegistry.py_types .oid1184 =
      some (1184, FC_BINARY, .timestamptzSendInteger) ∧
    ¬ (usesIntegerRep initialRegistry ∨ usesFloatRep initialRegistry) ∧
    (∀ s : TypeRegistry, usesIntegerRep (timestamps_are_integers s)) ∧
    (∀ s : TypeRegistry, usesFloatRep (timestamps_are_floats s)) := by
  refine ⟨by decide, by decide, by decide, by decide, by decide, ?_, ?_, ?_⟩
  · intro h
    rcases h with h | h
    · exact absurd h.1 (by decide)
    · exact absurd h.2.2.2.1 (by decide)
  · intro s
    refine ⟨rfl, rfl, rfl, rfl, rfl, rfl, rfl⟩
  · intro s
    refine ⟨rfl, rfl, rfl, rfl, rfl, rfl, rfl⟩

/-! ## Encoding translator (translate.py, _establish_encoding_hash and
update_client_encoding)

self.client_encoding holds a codec name, or Python None after an
explicitly unsupported server encoding was seen; the model uses
Option String with none for that sentinel. -/

/-- The encodings table of _establish_encoding_hash (translate.py lines
168-214): unsupported names map to None, renamed ones to the Python codec
name. -/
def encodings : List (String × Option String) := [
  ("mule_internal", none),
  ("euc_tw", none),
  ("euc_cn", some "gb2312"),
  ("iso_8859_5", some "is8859_5"),
  ("iso_8859_6", some "is8859_6"),
  ("iso_8859_7", some "is8859_7"),
  ("iso_8859_8", some "is8859_8"),
  ("koi8", some "koi8_r"),
  ("latin1", some "iso8859-1"),
  ("latin2", some "iso8859_2"),
  ("latin3", some "iso8859_3"),
  ("latin4", some "iso8859_4"),
  ("latin5", some "iso8859_9"),
  ("latin6", some "iso8859_10"),
  ("latin7", some "iso8859_13"),
  ("latin8", some "iso8859_14"),
  ("latin9", some "iso8859_15"),
  ("sql_ascii", some "ascii"),
  ("win866", some "cp886"),
  ("win874", some "cp874"),
  ("win1250", some "cp1250"),
  ("win1251", some "cp1251"),
  ("win1252", some "cp1252"),
  ("win1253", some "cp1253"),
  ("win1254", some "cp1254"),
  ("win1255", some "cp1255"),
  ("win1256", some "cp1256"),
  ("win1257", some "cp1257"),
  ("win1258", some "cp1258"),
  ("unicode", some "utf-8")]

/-- update_client_encoding: self.client_encoding =
self.encodings.get(encoding, encoding) -- a mapped name takes its table
value (possibly the None sentinel), an unmapped name passes through. -/
def update_client_encoding (encoding : String) : Option String :=
  (encodings.lookup encoding).getD (some encoding)

/-- text_out: data.encode(self.client_encoding).  str.encode(None) raises
TypeError, so the None sentinel makes every text encode fail; for a named
codec the pre-encoded byte content is returned (ASCII scope, matching
text_recv). -/
def text_out (client_encoding : Option String) (data : List Nat) :
    Except PyErr (List Nat) :=
  match client_encoding with
  | none => .error .typeError
  | some _ => .ok data

/-- C6: a server encoding name in the table maps to its codec name
(latin1 to iso8859-1), an absent name passes through unchanged, and
mule_internal maps to the None sentinel, after which every text decode
and encode call fails with TypeError instead of mis-decoding. -/
theorem c6_encoding_translator :
    update_client_encoding "latin1" = some "iso8859-1" ∧
    (∀ name : String, encodings.lookup name = none →
      update_client_encoding name = some name) ∧
    update_client_encoding "mule_internal" = none ∧
    (∀ (data : List Nat) (offset length : Nat),
      text_recv none data offset length = .error .typeError) ∧
    (∀ data : List Nat, text_out none data = .error .typeError) := by
  refine ⟨by decide, ?_, by decide, fun data offset length => rfl,
    fun data => rfl⟩
  intro name h
  rw [update_client_encoding, h]
  rfl

/-- Witness for C6: the name cp437 is not in the table and passes through
unchanged. -/
theorem c6_encoding_translator_witness :
    update_client_encoding "cp437" = some "cp437" :=
  c6_encoding_translator.2.1 "cp437" (by decide)

/-! ## Pre-built short-integer pack pairs (translate.py,
_create_pack_shorts called from __init__ with max_pack_shorts_count=20)

The loop runs for index in range(1, max_pack_shorts_count) and files the
pack function for the struct format index * "h" under index in
self.pack_shorts, and the unpack partner under the same key in
self.unpack_shorts; one table therefore models both dicts.  A format is
modelled as its list of field codes. -/

/-- struct format field codes used by the source. -/
inductive FmtCode where
  | i | h | q | d | f | c | b
  deriving DecidableEq, Repr

/-- _create_pack_shorts: the keys populated and the format stored under
each key. -/
def create_pack_shorts (max_pack_shorts_count : Nat) :
    List (Nat × List FmtCode) :=
  (List.range' 1 (max_pack_shorts_count - 1)).map
    (fun index => (index, List.replicate index FmtCode.h))

/-- C4-adjacent constants are below; C8 counterexample: with the default
max_pack_shorts_count = 20, range(1, 20) stops at 19, so no pre-built
pair exists for run length 20. -/
theorem c8_pack_shorts_counterexample :
    (create_pack_shorts 20).lookup 20 = none := by decide

/-- C8 amended: at default configuration a pre-built pack/unpack pair
exists for every short-integer run length from 1 to N - 1 = 19 inclusive
(the range(1, N) loop excludes N), and none for length N = 20. -/
theorem c8_pack_shorts_amended :
    (∀ i : Nat, 1 ≤ i → i ≤ 19 →
      (create_pack_shorts 20).lookup i =
        some (List.replicate i FmtCode.h)) ∧
    (create_pack_shorts 20).lookup 20 = none := by
  constructor
  · intro i h1 h2
    interval_cases i <;> decide
  · decide

/-- Witness for C8 amended: run length 7 has its pre-built pair. -/
theorem c8_pack_shorts_amended_witness :
    (create_pack_shorts 20).lookup 7 =
      some (List.replicate 7 FmtCode.h) :=
  c8_pack_shorts_amended.1 7 (by decide) (by decide)

/-! ## Array element OID inference (translate.py, inspect_array, and
constants.py, MIN_INT2..MAX_INT8)

A possibly nested list with integer or null leaves is modelled as
ArrTree.  inspect_array itself never gets past its first statement: it
calls self.flatten_array(value), but the class defines no attribute of
that name (the generator method is named array_flatten), so every call
raises AttributeError.  The integer-width selection logic that follows
(lines 1103-1130) is embedded separately as inspect_array_int_oid so that
its boundary behavior can be settled; note that even with the flattening
call repaired, the branches that build the (oid, fc, send_func) triple
reference the undefined module globals h_pack/i_pack/q_pack and
first_element, so the selected array OID still could not be returned. -/

/-- A possibly nested Python list with integer or None leaves. -/
inductive ArrTree where
  | leaf (v : Option Int)
  | node (children : List ArrTree)

/-- translate.py inspect_array: flattened = self.flatten_array(value)
raises AttributeError on every input, the instance having no
flatten_array attribute. -/
def inspect_array (_value : ArrTree) : Except PyErr Nat :=
  .error (.attributeError "flatten_array")

/-- Constants.MIN_INT2 = -2 ** 15 (constants.py line 118). -/
def MIN_INT2 : Int := -2 ^ 15

/-- Constants.MAX_INT2 = 2 ** 15 (constants.py line 119). -/
def MAX_INT2 : Int := 2 ^ 15

/-- Constants.MIN_INT4 = -2 ** 31. -/
def MIN_INT4 : Int := -2 ^ 31

/-- Constants.MAX_INT4 = 2 ** 31. -/
def MAX_INT4 : Int := 2 ^ 31

/-- Constants.MIN_INT8 = -2 ** 63. -/
def MIN_INT8 : Int := -2 ^ 63

/-- Constants.MAX_INT8 = 2 ** 63. -/
def MAX_INT8 : Int := 2 ^ 63

/-- One iteration of the integer-width probe loop of inspect_array
(translate.py lines 1107-1118): None elements are skipped; an element
strictly inside (MIN_INT2, MAX_INT2) leaves the flags alone; otherwise
int2_ok is cleared and the int4 and int8 windows are tried in turn. -/
def int_probe_step (acc : Bool × Bool × Bool) (v : Option Int) :
    Bool × Bool × Bool :=
  match v with
  | none => acc
  | some n =>
    if MIN_INT2 < n ∧ n < MAX_INT2 then acc
    else if MIN_INT4 < n ∧ n < MAX_INT4 then (false, acc.2.1, acc.2.2)
    else if MIN_INT8 < n ∧ n < MAX_INT8 then (false, false, acc.2.2)
    else (false, false, false)

/-- The probe loop over the flattened elements, starting from
int2_ok, int4_ok, int8_ok = True, True, True (line 1106). -/
def int_width_probe (flattened : List (Option Int)) : Bool × Bool × Bool :=
  flattened.foldl int_probe_step (true, true, true)

/-- The array OID selection that follows the probe (translate.py lines
1119-1130): the narrowest window whose flag survived, else
ArrayContentNotSupportedError. -/
def inspect_array_int_oid (flattened : List (Option Int)) :
    Except PyErr Nat :=
  match int_width_probe flattened with
  | (int2_ok, int4_ok, int8_ok) =>
    if int2_ok then .ok 1005
    else if int4_ok then .ok 1007
    else if int8_ok then .ok 1016
    else .error .arrayContentNotSupportedError

/-- Element predicate of the int2 window, strict on both sides like the
source comparison MIN_INT2 < v < MAX_INT2. -/
def fits2 (v : Option Int) : Bool :=
  match v with
  | none => true
  | some n => decide (MIN_INT2 < n) && decide (n < MAX_INT2)

/-- Element predicate of the int4 window. -/
def fits4 (v : Option Int) : Bool :=
  match v with
  | none => true
  | some n => decide (MIN_INT4 < n) && decide (n < MAX_INT4)

/-- Element predicate of the int8 window. -/
def fits8 (v : Option Int) : Bool :=
  match v with
  | none => true
  | some n => decide (MIN_INT8 < n) && decide (n < MAX_INT8)

theorem int_probe_foldl (l : List (Option Int)) (acc : Bool × Bool × Bool) :
    l.foldl int_probe_step acc =
      (acc.1 && l.all fits2, acc.2.1 && l.all fits4,
        acc.2.2 && l.all fits8) := by
  induction l generalizing acc with
  | nil => simp
  | cons v t ih =>
    rw [List.foldl_cons, ih]
    cases v with
    | none => simp [int_probe_step, fits2, fits4, fits8, List.all_cons]
    | some n =>
      by_cases h2 : MIN_INT2 < n ∧ n < MAX_INT2
      · have h4 : MIN_INT4 < n ∧ n < MAX_INT4 := by
          unfold MIN_INT2 MAX_INT2 at h2
          unfold MIN_INT4 MAX_INT4
          omega
        have h8 : MIN_INT8 < n ∧ n < MAX_INT8 := by
          unfold MIN_INT2 MAX_INT2 at h2
          unfold MIN_INT8 MAX_INT8
          omega
        simp [int_probe_step, h2, fits2, fits4, fits8, List.all_cons,
          h2.1, h2.2, h4.1, h4.2, h8.1, h8.2]
      · by_cases h4 : MIN_INT4 < n ∧ n < MAX_INT4
        · have h8 : MIN_INT8 < n ∧ n < MAX_INT8 := by
            unfold MIN_INT4 MAX_INT4 at h4
            unfold MIN_INT8 MAX_INT8
            omega
          simp [int_probe_step, h2, h4, fits2, fits4, fits8, List.all_cons,
            h4.1, h4.2, h8.1, h8.2]
        · by_cases h8 : MIN_INT8 < n ∧ n < MAX_INT8
          · simp [int_probe_step, h2, h4, h8, fits2, fits4, fits8,
              List.all_cons, h8.1, h8.2]
          · simp [int_probe_step, h2, h4, h8, fits2, fits4, fits8,
              List.all_cons]

/-- C4 counterexample: on the one-element list [-32768] the claim
predicts int2[] (OID 1005), -2 ^ 15 being a claimed boundary member of
the 16-bit range; the code raises AttributeError before any inference,
and even its own width probe, taken in isolation, rejects -2 ^ 15 from
the int2 window because the comparison is strict. -/
theorem c4_array_oid_counterexample :
    inspect_array (.node [.leaf (some (-2 ^ 15))]) =
      .error (.attributeError "flatten_array") ∧
    inspect_array_int_oid [some (-2 ^ 15)] ≠ .ok 1005 ∧
    inspect_array_int_oid [some (-2 ^ 15)] = .ok 1007 := by
  refine ⟨rfl, by decide, by decide⟩

/-- C4 amended: inspect_array raises AttributeError on every input,
because self.flatten_array does not exist (the method is named
array_flatten); its integer-width selection logic, taken in isolation,
picks int2[] (1005) exactly when every non-null element lies strictly
between -2 ^ 15 and 2 ^ 15, else int4[] (1007) for strictly between
-2 ^ 31 and 2 ^ 31, else int8[] (1016) for strictly between -2 ^ 63 and
2 ^ 63, and otherwise raises ArrayContentNotSupportedError; hence
2 ^ 15 - 1 stays int2 but -2 ^ 15 falls to int4, -2 ^ 31 falls to int8,
and -2 ^ 63 is rejected outright. -/
theorem c4_array_oid_amended :
    (∀ v : ArrTree,
      inspect_array v = .error (.attributeError "flatten_array")) ∧
    (∀ l : List (Option Int),
      inspect_array_int_oid l =
        if l.all fits2 then .ok 1005
        else if l.all fits4 then .ok 1007
        else if l.all fits8 then .ok 1016
        else .error .arrayContentNotSupportedError) ∧
    inspect_array_int_oid [some (2 ^ 15 - 1)] = .ok 1005 ∧
    inspect_array_int_oid [some (-2 ^ 15)] = .ok 1007 ∧
    inspect_array_int_oid [some (-2 ^ 31)] = .ok 1016 ∧
    inspect_array_int_oid [some (2 ^ 63 - 1)] = .ok 1016 ∧
    inspect_array_int_oid [some (-2 ^ 63)] =
      .error .arrayContentNotSupportedError := by
  refine ⟨fun v => rfl, ?_, by decide, by decide, by decide, by decide,
    by decide⟩
  intro l
  have hp : int_width_probe l =
      (l.all fits2, l.all fits4, l.all fits8) := by
    rw [int_width_probe, int_probe_foldl]
    simp
  rw [inspect_array_int_oid, hp]

/-! ## Timestamptz codecs (translate.py, timestamptz_send_integer,
timestamptz_send_float, timestamptz_recv_integer, timestamptz_recv_float,
timestamp_recv_float, timestamp_send_float; tzutc.py)

A timezone-aware datetime is modelled as its wall-clock microsecond count
since datetime.min together with the utcoffset of its tzinfo in
microseconds; tzutc.UTC has offset 0. -/

structure AwareDT where
  wall : Int
  offsetMicros : Int
  deriving DecidableEq, Repr

/-- timestamp.astimezone(self.utc): shift the wall clock to the UTC
offset 0, preserving the instant; an out-of-range result raises
OverflowError. -/
def astimezone_utc (t : AwareDT) : Except PyErr AwareDT :=
  if dtRepresentable (t.wall - t.offsetMicros) then
    .ok { wall := t.wall - t.offsetMicros, offsetMicros := 0 }
  else .error .overflowError

/-- self.epoch_tz = self.epoch.replace(tzinfo=self.utc). -/
def epoch_tz : AwareDT := { wall := epochMicros, offsetMicros := 0 }

/-- self.datetime_max_tz = datetime.datetime.max.replace(tzinfo=self.utc). -/
def datetime_max_tz : AwareDT := { wall := dtMaxMicros, offsetMicros := 0 }

/-- self.datetime_min_tz = datetime.datetime.min.replace(tzinfo=self.utc). -/
def datetime_min_tz : AwareDT := { wall := dtMinMicros, offsetMicros := 0 }

/-- translate.py timestamptz_send_integer:
self.timestamp_send_integer(timestamp.astimezone(self.utc).replace(tzinfo=None)). -/
def timestamptz_send_integer (t : AwareDT) : Except PyErr (List Nat) := do
  let u ← astimezone_utc t
  timestamp_send_integer u.wall

/-- translate.py timestamptz_recv_integer: like timestamp_recv_integer
but anchored at epoch_tz, so the result carries the UTC tzinfo; the
sentinel offsets map to datetime_max_tz / datetime_min_tz. -/
def timestamptz_recv_integer (data : List Nat) (offset length : Nat) :
    Except PyErr AwareDT :=
  match q_unpack data offset with
  | .error e => .error e
  | .ok micros =>
    match py_datetime_add epoch_tz.wall micros with
    | .ok t => .ok { wall := t, offsetMicros := 0 }
    | .error e =>
      if micros = infinity_microseconds then .ok datetime_max_tz
      else if micros = minus_infinity_microseconds then .ok datetime_min_tz
      else .error e

/-- struct.unpack_from with format "!d": reads the 8-byte big-endian
binary64 bit pattern at offset, raising struct.error on a short buffer. -/
def d_unpack_bits (data : List Nat) (offset : Nat) : Except PyErr Nat :=
  if offset + 8 ≤ data.length then
    .ok (bytesToNatBE ((data.drop offset).take 8))
  else .error .structError

/-- Exact rational value of a finite binary64 bit pattern; none for the
exponent-2047 patterns (infinities and NaN, on which utcfromtimestamp
raises). -/
def f64_to_rat (bits : Nat) : Option ℚ :=
  let s : Nat := bits / 2 ^ 63
  let e : Nat := bits / 2 ^ 52 % 2 ^ 11
  let m : Nat := bits % 2 ^ 52
  if e = 2047 then none
  else
    let mag : ℚ :=
      if e = 0 then (m : ℚ) / 2 ^ 1074
      else (((2 ^ 52 + m : Nat) : ℚ) * 2 ^ e) / 2 ^ 1075
  some (if s = 1 then -mag else mag)

/-- datetime.utcfromtimestamp accepts seconds in the datetime year range;
bounds in seconds since the Unix epoch. -/
def min_unix_seconds : ℚ := -62135596800

def max_unix_seconds : ℚ := 253402300800

/-- translate.py timestamp_recv_float:
datetime.utcfromtimestamp(self.epoch_seconds + self.d_unpack(data,
offset)[0]).  The model returns the exact seconds-since-Unix-epoch value
of the resulting naive datetime; utcfromtimestamp raises for non-finite
arguments and out-of-range results.  CPython adds the two terms as a
binary64 and rounds the result to whole microseconds; neither rounding is
exercised by a theorem below. -/
def timestamp_recv_float (data : List Nat) (offset length : Nat) :
    Except PyErr ℚ :=
  match d_unpack_bits data offset with
  | .error e => .error e
  | .ok bits =>
    match f64_to_rat bits with
    | none => .error .overflowError
    | some q =>
      let secs : ℚ := (epoch_seconds : ℚ) + q
      if min_unix_seconds ≤ secs ∧ secs < max_unix_seconds then .ok secs
      else .error .overflowError

/-- translate.py timestamptz_recv_float:
self.timestamp_recv_float(data, offset, length).replace(tzinfo=utc).
The bare name utc has no module-level binding (the module imports tzutc
and stores the instance in self.utc), so once the float decode succeeds
the method raises NameError instead of tagging the result. -/
def timestamptz_recv_float (data : List Nat) (offset length : Nat) :
    Except PyErr AwareDT :=
  match timestamp_recv_float data offset length with
  | .error e => .error e
  | .ok _ => .error (.nameError "utc")

/-- translate.py timestamp_send_float:
d_pack(timegm(timestamp.timetuple()) + timestamp.microsecond / 1e6 -
epoch_seconds).  The model yields the exact rational seconds offset
handed to d_pack; the binary64 roundings of the division and of d_pack
are not modelled (no theorem below depends on the packed bytes). -/
def timestamp_send_float (t : Int) : ℚ :=
  (timegm_model t : ℚ) + ((t % 1000000 : Int) : ℚ) / 1000000 -
    (epoch_seconds : ℚ)

/-- translate.py timestamptz_send_float:
self.timestamp_send_float(timestamp.astimezone(self.utc).replace(tzinfo=None)). -/
def timestamptz_send_float (t : AwareDT) : Except PyErr ℚ := do
  let u ← astimezone_utc t
  return timestamp_send_float u.wall

theorem d_unpack_bits_zero :
    d_unpack_bits (List.replicate 8 0) 0 = .ok 0 := by decide

theorem f64_to_rat_zero : f64_to_rat 0 = some 0 := by
  rw [f64_to_rat]
  norm_num

theorem timestamp_recv_float_zero :
    timestamp_recv_float (List.replicate 8 0) 0 8 = .ok 946684800 := by
  simp only [timestamp_recv_float, d_unpack_bits_zero, f64_to_rat_zero]
  norm_num [epoch_seconds, min_unix_seconds, max_unix_seconds]

/-- C7: under the integer representation every successful timestamptz
decode is tagged with the UTC timezone, and the integer and float
timestamptz encoders both normalize an aware datetime to UTC before the
naive epoch-relative encoder runs; under the float representation,
however, the timestamptz decoder raises NameError on every wire value it
can unpack, because it tags the result with the undefined bare name utc
instead of self.utc. -/
theorem c7_timestamptz_utc :
    (∀ (data : List Nat) (offset length : Nat) (r : AwareDT),
      timestamptz_recv_integer data offset length = .ok r →
      r.offsetMicros = 0) ∧
    (∀ t u : AwareDT, astimezone_utc t = .ok u →
      u.offsetMicros = 0 ∧ u.wall = t.wall - t.offsetMicros ∧
      timestamptz_send_integer t = timestamp_send_integer u.wall ∧
      timestamptz_send_float t = .ok (timestamp_send_float u.wall)) ∧
    timestamptz_recv_float (List.replicate 8 0) 0 8 =
      .error (.nameError "utc") := by
  refine ⟨?_, ?_, ?_⟩
  · intro data offset length r h
    cases hq : q_unpack data offset with
    | error e => simp [timestamptz_recv_integer, hq] at h
    | ok micros =>
      cases hadd : py_datetime_add epoch_tz.wall micros with
      | ok t =>
        simp [timestamptz_recv_integer, hq, hadd] at h
        rw [← h]
      | error e =>
        simp [timestamptz_recv_integer, hq, hadd] at h
        split at h
        · injection h with h
          rw [← h]
          rfl
        · split at h
          · injection h with h
            rw [← h]
            rfl
          · exact absurd h (by simp)
  · intro t u h
    have h2 := h
    rw [astimezone_utc] at h2
    split at h2
    · injection h2 with h2
      refine ⟨?_, ?_, ?_, ?_⟩
      · rw [← h2]
      · rw [← h2]
      · unfold timestamptz_send_integer
        rw [h, except_ok_bind]
      · unfold timestamptz_send_float
        rw [h, except_ok_bind, except_pure]
    · exact absurd h2 (by simp)
  · rw [timestamptz_recv_float, timestamp_recv_float_zero]

set_option maxRecDepth 4000 in
/-- Witness for C7: decoding offset 0 under the integer representation
yields the UTC-tagged epoch, and an aware datetime one hour east of UTC
is shifted back before the naive integer encoder runs. -/
theorem c7_timestamptz_utc_witness :
    ({ wall := epochMicros, offsetMicros := 0 } : AwareDT).offsetMicros
        = 0 ∧
    timestamptz_send_integer
        { wall := epochMicros, offsetMicros := 3600000000 } =
      timestamp_send_integer
        ({ wall := epochMicros - 3600000000, offsetMicros := 0 } :
          AwareDT).wall :=
  ⟨c7_timestamptz_utc.1 (q_pack_raw 0) 0 8
      { wall := epochMicros, offsetMicros := 0 } (by decide),
   (c7_timestamptz_utc.2.1
      { wall := epochMicros, offsetMicros := 3600000000 }
      { wall := epochMicros - 3600000000, offsetMicros := 0 }
      (by decide)).2.2.1⟩

end Pg8000
